import Mathlib

/-!
A shallow embedding of the forge add-on of the `portablemc` launcher
(`src/forge/portablemc_forge/__init__.py`) together with theorems about
its behaviour.  Pure functions of the Python source are translated to
Lean functions; the stateful parts (fields written on the `ForgeVersion`
object, files queued for download, files extracted from the installer
archive) are made explicit as record-valued results; Python exceptions
become `Except` errors.  Collaborator code (the `portablemc` launcher
core: `replace_vars`, `LibrarySpecifier.file_path`, HTTP transport and
the filesystem) is abstracted as function parameters, matching the
spec's stance that it is out of scope.
-/

namespace Forge

/-- Error codes of the `ForgeError` class (string constants in the source). -/
inductive ForgeErrorCode
  | notInstalled
  | minecraftVersionNotFound
  | minecraftVersionNotSupported
  | installerNotFound
  | installProfileNotFound
  | versionMetaNotFound
  | requiresJvm
deriving DecidableEq, Repr

/-- `ForgeError(code, version)`: a typed error carrying the offending version string. -/
structure ForgeError where
  code : ForgeErrorCode
  version : String
deriving DecidableEq, Repr

/-- Python runtime exceptions that the source can raise on malformed input:
`IndexError` (out-of-range subscript), `KeyError` (missing dict key),
`TypeError` (operation on a value of the wrong shape). -/
inductive PyErr
  | indexError
  | keyError
  | typeError
deriving DecidableEq, Repr

/-- Either a deliberate `ForgeError` or an escaping Python exception. -/
inductive RunError
  | forgeErr (e : ForgeError)
  | pyErr (e : PyErr)
deriving DecidableEq, Repr

/-! Python strings are sequences of code points; we embed the string
operations the source uses (`endswith`, `in`, slicing, indexing,
`split`, `join`) as structurally recursive functions over the character
list of a Lean `String`, mirroring Python's code-point semantics. -/

/-- Python `s.endswith(post)`. -/
def strEndsWith (s post : String) : Bool :=
  post.data.isSuffixOf s.data

/-- Python `c in s` for a single-character needle. -/
def strContains (s : String) (c : Char) : Bool :=
  s.data.contains c

/-- Python `s[:-n]` for `n > 0` (all but the last `n` characters). -/
def strDropRight (s : String) (n : Nat) : String :=
  ⟨s.data.take (s.data.length - n)⟩

/-- Python `s[n:]` (all but the first `n` characters). -/
def strDrop (s : String) (n : Nat) : String :=
  ⟨s.data.drop n⟩

/-- Python `s[0]`, defined on non-empty strings (callers guard emptiness). -/
def strFront (s : String) : Char :=
  s.data.headD 'A'

/-- Python `s[-1]`, defined on non-empty strings (callers guard emptiness). -/
def strBack (s : String) : Char :=
  s.data.getLastD 'A'

/-- Python `sep.join(parts)`. -/
def strJoin (sep : String) : List String → String
  | [] => ""
  | [x] => x
  | x :: xs => x ++ sep ++ strJoin sep xs

/-- Lookup in a Python dict modelled as an association list with unique keys:
the first binding of the key, `none` when absent (`dict.get`). -/
def alookup {β : Type} : List (String × β) → String → Option β
  | [], _ => none
  | (k', v) :: rest, k => if k' = k then some v else alookup rest k

/-! ## Version resolver (`new_version`, lines 44-78)

We embed the resolver from the point after the collaborator's
`manifest.filter_latest` call: its inputs are the resulting
`game_version` string, the `game_version_alias` flag, and the promotion
map returned by `request_promo_versions` (a JSON dict, modelled as an
association list). -/

/-- Line 58: promotion lookup is required when the version is an alias, or ends
with `-recommended` or `-latest`, or contains no `-`. -/
def needsPromoLookup (gameVersion : String) (isAlias : Bool) : Bool :=
  isAlias || strEndsWith gameVersion "-recommended" || strEndsWith gameVersion "-latest"
    || !(strContains gameVersion '-')

/-- Lines 63-66: before composing the result, a `-recommended` (12 chars) or
`-latest` (7 chars) suffix is sliced off the game version. -/
def stripPromoSuffix (g : String) : String :=
  if strEndsWith g "-recommended" then strDropRight g 12
  else if strEndsWith g "-latest" then strDropRight g 7
  else g

/-- Lines 60-62: the loop over the promotion-key suffixes, returning the first
build found in the promotion map. -/
def promoLoop (promos : List (String × String)) (g : String) : List String → Option String
  | [] => none
  | s :: rest =>
    match alookup promos (g ++ s) with
    | some b => some b
    | none => promoLoop promos g rest

/-- The full promotion lookup: suffixes `""`, `"-recommended"`, `"-latest"` in order. -/
def promoLookup (promos : List (String × String)) (g : String) : Option String :=
  promoLoop promos g ["", "-recommended", "-latest"]

/-- Lines 53-77 of `new_version`: resolve a game version (already passed through
the collaborator's `filter_latest`) to a concrete forge build identifier. -/
def resolveForge (promos : List (String × String)) (gameVersion : String)
    (isAlias : Bool) : Except ForgeError String :=
  let fv : Option String :=
    if needsPromoLookup gameVersion isAlias then
      (promoLookup promos gameVersion).map
        (fun b => stripPromoSuffix gameVersion ++ "-" ++ b)
    else none
  match fv with
  | some v => .ok v
  | none =>
    if isAlias then .error ⟨.minecraftVersionNotSupported, gameVersion⟩
    else .ok gameVersion

/-! ## A small JSON model

Python's `json.load` produces dicts, lists, strings, numbers, booleans
and `None`; dicts preserve insertion order and have unique keys, so we
model them as association lists. -/

/-- JSON values as produced by Python's `json.load`. -/
inductive Json
  | null
  | bool (b : Bool)
  | num (n : Int)
  | str (s : String)
  | arr (xs : List Json)
  | obj (kvs : List (String × Json))

/-- Python truthiness of a JSON value (`None`, `False`, `0`, `""`, `[]`, `{}`
are falsy; everything else is truthy). -/
def Json.truthy : Json → Bool
  | .null => false
  | .bool b => b
  | .num n => n != 0
  | .str s => !s.data.isEmpty
  | .arr xs => !xs.isEmpty
  | .obj kvs => !kvs.isEmpty

/-- A JSON object (a Python dict of JSON values). -/
def JObj : Type := List (String × Json)

/-- `d.get(k)` on a JSON value: key lookup on an object, `none` otherwise. -/
def jGet : Json → String → Option Json
  | .obj kvs, k => alookup kvs k
  | _, _ => none

/-- `d[k] = v` on a Python dict: replace the value in place when the key is
present (position preserved), append the binding otherwise. -/
def setKey {β : Type} : List (String × β) → String → β → List (String × β)
  | [], k, v => [(k, v)]
  | (k', v') :: rest, k, v =>
    if k' = k then (k, v) :: rest else (k', v') :: setKey rest k v

/-- A Python `for` building a list, stopping at the first raised exception
(Lean's `List.mapM` on `Except`, unfolded for easy reasoning). -/
def mapE {α β ε : Type} (f : α → Except ε β) : List α → Except ε (List β)
  | [] => .ok []
  | a :: l =>
    match f a with
    | .error e => .error e
    | .ok b =>
      match mapE f l with
      | .error e => .error e
      | .ok bs => .ok (b :: bs)

/-! ## Install-profile parser (`_fetch_version_meta`, lines 153-235)

The parser is embedded from the point where `install_profile.json` has
been read from the archive.  The two schema generations become the two
constructors of `InstallProfile`; field accesses that the source
performs unconditionally (`install_lib["name"]`,
`install_lib["downloads"]["artifact"]`, `install["filePath"]`, ...)
are embedded as typed fields.  Filesystem and collaborator services are
the `Env` parameters; the side effects of the parse (paths queued on
`self.dl`, files extracted from the archive) are returned explicitly. -/

/-- One entry of the modern profile's own `"libraries"` array, reduced to the
fields the source reads: `name`, `downloads.artifact.url` and the optional
`downloads.artifact.size` used by `DownloadEntry.from_meta`. -/
structure InstallLib where
  name : String
  url : String
  size : Option Nat
deriving DecidableEq, Repr

/-- One entry of the modern profile's `"processors"` array: `processor["jar"]`,
`processor.get("classpath", [])` and `processor.get("args", [])`. -/
structure Processor where
  jar : String
  classpath : List String
  args : List String
deriving DecidableEq, Repr

/-- The two install-profile schema generations, keyed on the presence of the
`"json"` key (line 175).  For the modern schema the version-metadata document
named by `"json"` has already been read from the archive; for the legacy
schema `versionInfo` is the optional embedded metadata object and the
`install.filePath` / `install.path` strings locate the single forge jar. -/
inductive InstallProfile
  | modern (versionMeta : JObj) (libraries : List InstallLib)
      (processors : List Processor) (data : List (String × Json))
  | legacy (versionInfo : Option JObj) (installFilePath : String) (installPath : String)

/-- Collaborator and filesystem services used by the parser:
the configured libraries root, the maven-coordinate-to-relative-path
function (`LibrarySpecifier.from_str(...).file_path()`), and the
`os.path.isfile` / `os.path.getsize` oracles. -/
structure Env where
  librariesDir : String
  filePath : String → String
  isfile : String → Bool
  getsize : String → Nat

/-- `os.path.join` for a relative second component (posix flavour). -/
def pathJoin (a b : String) : String := a ++ "/" ++ b

/-- Destination path of a library artifact:
`path.join(self.context.libraries_dir, lib_spec.file_path())` (line 194). -/
def libDest (env : Env) (l : InstallLib) : String :=
  pathJoin env.librariesDir (env.filePath l.name)

/-- A pending download (`DownloadEntry.from_meta(lib_artifact, lib_path)`),
reduced to the fields the source decides with. -/
structure DlEntry where
  url : String
  dst : String
  size : Option Nat
deriving DecidableEq, Repr

/-- The download entry built for a library whose artifact URL is non-empty. -/
def mkDlEntry (env : Env) (l : InstallLib) : DlEntry :=
  ⟨l.url, libDest env l, l.size⟩

/-- Lines 200-201: queue the download when the destination file is missing, or
an expected size is declared and the on-disk size differs. -/
def shouldQueue (env : Env) (l : InstallLib) : Bool :=
  !(env.isfile (libDest env l)) ||
    (match l.size with
     | some n => env.getsize (libDest env l) != n
     | none => false)

/-- The explicit state written by the modern-schema library loop:
the `forge_install_libraries` manifest (name to destination path), the
entries appended to `self.dl`, and the archive entries extracted by
`zip_extract_file` (entry name, destination). -/
structure FetchState where
  libPaths : List (String × String)
  dl : List DlEntry
  extracted : List (String × String)
deriving DecidableEq, Repr

/-- Lines 189-204: the loop over the modern profile's `"libraries"` array.
Every entry is recorded in the manifest; a non-empty artifact URL routes the
entry to the (conditional) download queue, an empty URL extracts
`maven/<coordinate-path>` from the archive immediately. -/
def fetchModernLibs (env : Env) : List InstallLib → FetchState
  | [] => ⟨[], [], []⟩
  | l :: rest =>
    let p := libDest env l
    let st := fetchModernLibs env rest
    if l.url ≠ "" then
      if shouldQueue env l then
        ⟨(l.name, p) :: st.libPaths, mkDlEntry env l :: st.dl, st.extracted⟩
      else
        ⟨(l.name, p) :: st.libPaths, st.dl, st.extracted⟩
    else
      ⟨(l.name, p) :: st.libPaths, st.dl,
        ("maven/" ++ env.filePath l.name, p) :: st.extracted⟩

/-- Lines 207-208: keep only the `"client"` value of every entry of the
profile's `"data"` object (`data_val["client"]` raises on a value that is not
an object with a `"client"` key). -/
def extractClientData : List (String × Json) → Except PyErr (List (String × Json)) :=
  mapE (fun kv =>
    match jGet kv.2 "client" with
    | some c => .ok (kv.1, c)
    | none => .error .keyError)

/-- Lines 219-224: strip the legacy-only `serverreq` / `clientreq` /
`checksums` keys from one library object. -/
def stripLegacyLib (lib : JObj) : JObj :=
  lib.filter (fun kv =>
    !(kv.1 = "serverreq" || kv.1 = "clientreq" || kv.1 = "checksums"))

/-- Lines 218-224: iterate `version_meta["libraries"]` (a required key) and
strip the legacy keys of each library object in place. -/
def stripLegacyLibs (meta : JObj) : Except PyErr JObj :=
  match alookup meta "libraries" with
  | some (.arr libs) =>
    match mapE (fun j =>
        match j with
        | .obj kvs => .ok (Json.obj (stripLegacyLib kvs))
        | _ => .error PyErr.typeError) libs with
    | .error e => .error e
    | .ok libs2 => .ok (setKey meta "libraries" (.arr libs2))
  | some _ => .error .typeError
  | none => .error .keyError

/-- The normalized result of one parse: the version-metadata document (its
`id` already overwritten), the retained `forge_install_version_libraries`,
processors, install data, the library-path manifest, the pending downloads
and the files extracted from the archive. -/
structure ParsedVersion where
  meta : JObj
  versionLibraries : Option Json
  processors : List Processor
  installData : List (String × Json)
  libPaths : List (String × String)
  dl : List DlEntry
  extracted : List (String × String)

/-- Lines 175-235 of `_fetch_version_meta`: normalize a parsed install
profile of either schema.  The modern branch records the version metadata's
own libraries (line 182, a required key), runs the library loop and the data
loop; the legacy branch requires `versionInfo`, strips legacy library keys
and extracts the single forge jar named by the `install` section.  Both
branches overwrite the metadata's `id` with the caller-supplied version id
(line 234). -/
def parseProfile (versionId forgeVersion : String) (env : Env) :
    InstallProfile → Except RunError ParsedVersion
  | .modern meta libs procs data =>
    match alookup meta "libraries" with
    | none => .error (.pyErr .keyError)
    | some vlibs =>
      let st := fetchModernLibs env libs
      match extractClientData data with
      | .error e => .error (.pyErr e)
      | .ok idata =>
        .ok { meta := setKey meta "id" (Json.str versionId)
              versionLibraries := some vlibs
              processors := procs
              installData := idata
              libPaths := st.libPaths
              dl := st.dl
              extracted := st.extracted }
  | .legacy vinfo installFilePath installPath =>
    match vinfo with
    | none => .error (.forgeErr ⟨.versionMetaNotFound, forgeVersion⟩)
    | some meta0 =>
      match stripLegacyLibs meta0 with
      | .error e => .error (.pyErr e)
      | .ok meta1 =>
        .ok { meta := setKey meta1 "id" (Json.str versionId)
              versionLibraries := none
              processors := []
              installData := []
              libPaths := []
              dl := []
              extracted := [(installFilePath,
                pathJoin env.librariesDir (env.filePath installPath))] }

/-! ## Library filtering (`prepare_libraries`, lines 237-247) -/

/-- The comprehension guard `lib.get("downloads")` of line 244: Python
truthiness of the value of the `downloads` key, `False` when absent. -/
def hasDownloads (lib : JObj) : Bool :=
  match alookup lib "downloads" with
  | some v => v.truthy
  | none => false

/-- Lines 242-245: when the `forge_install_libraries` manifest is present
(modern-schema install in progress), replace `version_meta["libraries"]` with
the entries whose `downloads` value is truthy; otherwise leave it unchanged.
The subsequent delegation to the collaborator's generic step is out of
scope. -/
def prepareLibrariesMeta (forgeInstallLibraries : Option (List (String × String)))
    (libs : List JObj) : List JObj :=
  if forgeInstallLibraries.isSome then libs.filter hasDownloads else libs

/-! ## Post-processing (`prepare_post`, lines 249-276)

`prepare_post` reads the manifest, processor list and install data
produced at metadata-fetch time together with the collaborator-provided
`jvm_exec`, and runs every processor through the external runtime.  We
embed it as a function from those fields to the list of spawned command
lines (the side effect of `subprocess.run`), with the collaborator's
`replace_vars` abstracted as a parameter. -/

/-- `os.path.pathsep` (posix). -/
def pathsep : String := ":"

/-- Lines 259-264, `replace_install_vars`: a template whose first character is
`[` and last character is `]` resolves to the manifest path of the bracketed
library name (a `KeyError` when unknown); any other template goes through the
collaborator's `replace_vars` over the install data.  The empty template hits
`txt[0]` and raises an `IndexError`. -/
def replaceInstallVars (replaceVars : String → List (String × Json) → String)
    (installLibPaths : List (String × String)) (installData : List (String × Json))
    (txt : String) : Except PyErr String :=
  if txt = "" then .error .indexError
  else if strFront txt = '[' ∧ strBack txt = ']' then
    match alookup installLibPaths (strDropRight (strDrop txt 1) 1) with
    | some p => .ok p
    | none => .error .keyError
  else .ok (replaceVars txt installData)

/-- Lines 268-274: resolve one processor's jar and classpath through the
manifest, substitute its argument templates, and build the spawned command
line `[jvm, "-cp", <classpath joined by pathsep>, "-jar", <jar>, *args]`. -/
def buildProcessorCommand (replaceVars : String → List (String × Json) → String)
    (installLibPaths : List (String × String)) (installData : List (String × Json))
    (jvm : String) (p : Processor) : Except RunError (List String) :=
  match alookup installLibPaths p.jar with
  | none => .error (.pyErr .keyError)
  | some jarPath =>
    match mapE (fun n =>
        match alookup installLibPaths n with
        | some x => .ok x
        | none => .error (RunError.pyErr .keyError)) p.classpath with
    | .error e => .error e
    | .ok classpath =>
      match mapE (fun a =>
          match replaceInstallVars replaceVars installLibPaths installData a with
          | .ok s => .ok s
          | .error e => .error (RunError.pyErr e)) p.args with
      | .error e => .error e
      | .ok args =>
        .ok ([jvm, "-cp", strJoin pathsep classpath, "-jar", jarPath] ++ args)

/-- Lines 249-276 of `prepare_post` (after the `super()` call): when the
install manifest is present, fail with `RequiresJvm` if processors are
declared but no external runtime executable is configured, and otherwise run
every processor sequentially, returning the spawned command lines in order.
The `none` runtime branch is only reachable with an empty processor list. -/
def preparePost (replaceVars : String → List (String × Json) → String)
    (forgeVersion : String) (installLibPaths : Option (List (String × String)))
    (installProcessors : List Processor) (installData : List (String × Json))
    (jvmExec : Option String) : Except RunError (List (List String)) :=
  match installLibPaths with
  | none => .ok []
  | some lp =>
    if installProcessors.length ≠ 0 ∧ jvmExec = none then
      .error (.forgeErr ⟨.requiresJvm, forgeVersion⟩)
    else
      match jvmExec with
      | some jvm => mapE (buildProcessorCommand replaceVars lp installData jvm) installProcessors
      | none => .ok []

/-! ## Installer-archive search (lines 126-151 and `request_install_jar`) -/

/-- Line 126: `self.forge_version.split("-", 1)[0]`, the game version in front
of the first `-` (the whole string when there is none). -/
def gameVersionOf (forgeVersion : String) : String :=
  ⟨forgeVersion.data.takeWhile (fun c => c ≠ '-')⟩

/-- Lines 131-142: the fixed table of historical filename suffixes, keyed by
game version. -/
def forgeSuffixTable : List (String × List String) :=
  [("1.11", ["-1.11.x"]),
   ("1.10.2", ["-1.10.0"]),
   ("1.10", ["-1.10.0"]),
   ("1.9.4", ["-1.9.4"]),
   ("1.9", ["-1.9.0", "-1.9"]),
   ("1.8.9", ["-1.8.9"]),
   ("1.8.8", ["-1.8.8"]),
   ("1.8", ["-1.8"]),
   ("1.7.10", ["-1.7.10", "-1710ls", "-new"]),
   ("1.7.2", ["-mc172"])]

/-- The legacy suffix list of a game version (`{...}.get(game_version, [])`). -/
def legacySuffixes (gameVersion : String) : List String :=
  (alookup forgeSuffixTable gameVersion).getD []

/-- The installer URL of a candidate version string (line 317). -/
def installerUrl (v : String) : String :=
  "https://maven.minecraftforge.net/net/minecraftforge/forge/" ++ v
    ++ "/forge-" ++ v ++ "-installer.jar"

/-- Lines 316-320, `request_install_jar`: the archive of the candidate version
when its URL answers with status 200, `none` otherwise.  The HTTP transport is
the `status` oracle; the archive itself is represented by the version string
that located it. -/
def requestInstallJar (status : String → Nat) (v : String) : Option String :=
  if status (installerUrl v) == 200 then some v else none

/-- Lines 145-148: the loop trying each suffix until an installer answers. -/
def findJarLoop (status : String → Nat) (fv : String) : List String → Option String
  | [] => none
  | s :: rest =>
    match requestInstallJar status (fv ++ s) with
    | some j => some j
    | none => findJarLoop status fv rest

/-- Lines 130-151: try the unsuffixed candidate first, then the legacy
suffixes of the build's game version; raise `InstallerNotFound` when every
candidate fails. -/
def findInstallJar (status : String → Nat) (fv : String) : Except ForgeError String :=
  match findJarLoop status fv ("" :: legacySuffixes (gameVersionOf fv)) with
  | some j => .ok j
  | none => .error ⟨.installerNotFound, fv⟩

/-! ## Theorems -/

/-- C1: For every requested forge identifier for which promotion lookup is
required (the manifest-resolved game version is an alias, or ends with
`-recommended` or `-latest`, or contains no `-`), the resolver looks up the
promotion-map keys `<gameVersion><suffix>` for suffix in the order `""`,
`-recommended`, `-latest`, and on the first hit composes the result
`<gameVersion>-<foundBuild>` with any `-recommended`/`-latest` suffix
stripped from the game version; an exact game-version promotion key always
wins over the suffixed alias keys. -/
theorem forge_c1 (promos : List (String × String)) (g : String) (a : Bool)
    (h : needsPromoLookup g a = true) :
    (∀ b, alookup promos g = some b →
      resolveForge promos g a = .ok (stripPromoSuffix g ++ "-" ++ b)) ∧
    (alookup promos g = none →
      ∀ b, alookup promos (g ++ "-recommended") = some b →
        resolveForge promos g a = .ok (stripPromoSuffix g ++ "-" ++ b)) ∧
    (alookup promos g = none → alookup promos (g ++ "-recommended") = none →
      ∀ b, alookup promos (g ++ "-latest") = some b →
        resolveForge promos g a = .ok (stripPromoSuffix g ++ "-" ++ b)) := by
  refine ⟨?_, ?_, ?_⟩
  · intro b hb
    simp [resolveForge, h, promoLookup, promoLoop, hb]
  · intro h0 b hb
    simp [resolveForge, h, promoLookup, promoLoop, h0, hb]
  · intro h0 h1 b hb
    simp [resolveForge, h, promoLookup, promoLoop, h0, h1, hb]

/-- C1 witness: with both an exact promotion key and a `-recommended` alias
key present, the exact key wins. -/
theorem forge_c1_witness :
    resolveForge [("1.20.1", "47.2.0"), ("1.20.1-recommended", "47.1.0")]
      "1.20.1" true = .ok "1.20.1-47.2.0" :=
  (forge_c1 [("1.20.1", "47.2.0"), ("1.20.1-recommended", "47.1.0")]
    "1.20.1" true rfl).1 "47.2.0" rfl

/-- C2: When the promotion lookup finds no entry under any of the three
suffixes, resolution fails with `MinecraftVersionNotSupported` carrying the
game version when it came from a manifest alias, and otherwise returns the
remainder verbatim with no error. -/
theorem forge_c2 (promos : List (String × String)) (g : String) (a : Bool)
    (h0 : alookup promos g = none)
    (h1 : alookup promos (g ++ "-recommended") = none)
    (h2 : alookup promos (g ++ "-latest") = none) :
    resolveForge promos g a =
      if a = true then .error ⟨.minecraftVersionNotSupported, g⟩ else .ok g := by
  cases hn : needsPromoLookup g a <;>
    simp [resolveForge, hn, promoLookup, promoLoop, h0, h1, h2]

/-- C2 witness: an alias with an empty promotion map fails with
`MinecraftVersionNotSupported`. -/
theorem forge_c2_witness :
    resolveForge [] "1.21" true = .error ⟨.minecraftVersionNotSupported, "1.21"⟩ :=
  forge_c2 [] "1.21" true rfl rfl rfl

/-- The manifest built by the modern library loop maps every profile library
(and only those) to its maven destination path, in order. -/
theorem fetchModernLibs_libPaths (env : Env) (libs : List InstallLib) :
    (fetchModernLibs env libs).libPaths =
      libs.map (fun l => (l.name, libDest env l)) := by
  induction libs with
  | nil => rfl
  | cons l rest ih =>
    by_cases hu : l.url = ""
    · simp [fetchModernLibs, hu, ih]
    · by_cases hq : shouldQueue env l <;> simp [fetchModernLibs, hu, hq, ih]

/-- The files extracted by the modern library loop are exactly the
`maven/<coordinate-path>` entries of the libraries with an empty artifact
URL, in order. -/
theorem fetchModernLibs_extracted (env : Env) (libs : List InstallLib) :
    (fetchModernLibs env libs).extracted =
      (libs.filter (fun l => l.url = "")).map
        (fun l => ("maven/" ++ env.filePath l.name, libDest env l)) := by
  induction libs with
  | nil => rfl
  | cons l rest ih =>
    by_cases hu : l.url = ""
    · simp [fetchModernLibs, hu, ih]
    · by_cases hq : shouldQueue env l <;> simp [fetchModernLibs, hu, hq, ih]

/-- The pending downloads produced by the modern library loop are exactly the
entries of the libraries with a non-empty URL whose destination file is
missing or has the wrong size, in order. -/
theorem fetchModernLibs_dl (env : Env) (libs : List InstallLib) :
    (fetchModernLibs env libs).dl =
      libs.filterMap (fun l =>
        if l.url ≠ "" ∧ shouldQueue env l = true then some (mkDlEntry env l)
        else none) := by
  induction libs with
  | nil => rfl
  | cons l rest ih =>
    by_cases hu : l.url = ""
    · simp [fetchModernLibs, hu, ih]
    · by_cases hq : shouldQueue env l <;> simp [fetchModernLibs, hu, hq, ih]

/-- C3: When parsing a modern-schema install profile, the library-artifact
manifest is built from the profile's own `libraries` array (independently of
the version metadata's libraries): every entry's name is mapped to its maven
destination path under the libraries root; an entry with a non-empty
`downloads.artifact` URL is handled by the download path (every pending
download comes from such an entry), and an entry with an empty URL is
extracted during parsing from the archive entry `maven/<coordinate-path>` to
that destination path. -/
theorem forge_c3 (vid fv : String) (env : Env) (meta : JObj)
    (libs : List InstallLib) (procs : List Processor)
    (data : List (String × Json)) (r : ParsedVersion)
    (h : parseProfile vid fv env (.modern meta libs procs data) = .ok r) :
    r.libPaths =
      libs.map (fun l => (l.name, pathJoin env.librariesDir (env.filePath l.name))) ∧
    r.extracted =
      (libs.filter (fun l => l.url = "")).map
        (fun l => ("maven/" ++ env.filePath l.name,
          pathJoin env.librariesDir (env.filePath l.name))) ∧
    ∀ e ∈ r.dl, ∃ l, l ∈ libs ∧ l.url ≠ "" ∧ e = mkDlEntry env l := by
  simp only [parseProfile] at h
  cases h1 : alookup meta "libraries" <;> rw [h1] at h
  · exact absurd h (by simp)
  · cases h2 : extractClientData data <;> rw [h2] at h
    · exact absurd h (by simp)
    · injection h with h'
      subst h'
      refine ⟨fetchModernLibs_libPaths env libs, fetchModernLibs_extracted env libs, ?_⟩
      intro e he
      rw [fetchModernLibs_dl] at he
      simp only [List.mem_filterMap] at he
      obtain ⟨l, hl, hcond⟩ := he
      by_cases hc : l.url ≠ "" ∧ shouldQueue env l = true
      · rw [if_pos hc] at hcond
        exact ⟨l, hl, hc.1, (Option.some.injEq .. ▸ hcond).symm⟩
      · rw [if_neg hc] at hcond
        exact absurd hcond (by simp)

/-- C9: A download entry is queued for a non-empty-URL library exactly when
the destination file does not already exist, or an expected size is declared
and the on-disk size differs from it; a library whose destination file
already exists with the expected size is skipped. -/
theorem forge_c9 (env : Env) (libs : List InstallLib) :
    (fetchModernLibs env libs).dl =
      libs.filterMap (fun l =>
        if l.url ≠ "" ∧ shouldQueue env l = true then some (mkDlEntry env l)
        else none) ∧
    ∀ l : InstallLib, shouldQueue env l = true ↔
      (env.isfile (libDest env l) = false ∨
        ∃ n, l.size = some n ∧ env.getsize (libDest env l) ≠ n) := by
  refine ⟨fetchModernLibs_dl env libs, ?_⟩
  intro l
  cases hs : l.size <;> simp [shouldQueue, hs]

/-- A sample environment for witnesses: libraries root `libs`, the identity
maven-path function, no file present on disk. -/
def sampleEnv : Env := ⟨"libs", fun n => n, fun _ => false, fun _ => 0⟩

/-- A sample modern profile: one downloadable library and one in-archive
library. -/
def sampleModernLibs : List InstallLib :=
  [⟨"a:b:1", "http://u", some 3⟩, ⟨"c:d:2", "", none⟩]

/-- The result of parsing the sample modern profile. -/
def sampleModernParsed : ParsedVersion :=
  { meta := [("libraries", Json.arr []), ("id", Json.str "pid")]
    versionLibraries := some (Json.arr [])
    processors := []
    installData := []
    libPaths := [("a:b:1", "libs/a:b:1"), ("c:d:2", "libs/c:d:2")]
    dl := [⟨"http://u", "libs/a:b:1", some 3⟩]
    extracted := [("maven/c:d:2", "libs/c:d:2")] }

/-- C3 witness: the sample modern profile parses successfully and its
manifest is the maven destination of each of its own two libraries. -/
theorem forge_c3_witness :
    sampleModernParsed.libPaths = [("a:b:1", "libs/a:b:1"), ("c:d:2", "libs/c:d:2")] :=
  (forge_c3 "pid" "1.20.1-47.2.0" sampleEnv
    [("libraries", Json.arr []), ("id", Json.str "orig")]
    sampleModernLibs [] [] sampleModernParsed rfl).1

/-- Writing a key into a Python dict makes it readable back. -/
theorem alookup_setKey {β : Type} (o : List (String × β)) (k : String) (v : β) :
    alookup (setKey o k v) k = some v := by
  induction o with
  | nil => simp [setKey, alookup]
  | cons kv rest ih =>
    obtain ⟨k', v'⟩ := kv
    by_cases hk : k' = k
    · simp [setKey, hk, alookup]
    · simp [setKey, hk, alookup, ih]

/-- C8: For every successfully parsed install profile of either schema, the
version-metadata document returned by the fetch step has its `id` field set
to the caller-supplied version id. -/
theorem forge_c8 (vid fv : String) (env : Env) (p : InstallProfile)
    (r : ParsedVersion) (h : parseProfile vid fv env p = .ok r) :
    alookup r.meta "id" = some (Json.str vid) := by
  cases p with
  | modern meta libs procs data =>
    simp only [parseProfile] at h
    cases h1 : alookup meta "libraries" <;> rw [h1] at h
    · exact absurd h (by simp)
    · cases h2 : extractClientData data <;> rw [h2] at h
      · exact absurd h (by simp)
      · injection h with h'
        subst h'
        exact alookup_setKey meta "id" (Json.str vid)
  | legacy vinfo installFilePath installPath =>
    cases vinfo with
    | none => exact absurd h (by simp [parseProfile])
    | some meta0 =>
      simp only [parseProfile] at h
      cases h1 : stripLegacyLibs meta0 <;> rw [h1] at h
      · exact absurd h (by simp)
      · injection h with h'
        subst h'
        exact alookup_setKey _ "id" (Json.str vid)

/-- A sample legacy profile whose metadata already carries a foreign `id`. -/
def sampleLegacyProfile : InstallProfile :=
  .legacy (some [("libraries", Json.arr [Json.obj [("name", Json.str "n"),
      ("serverreq", Json.bool true)]]), ("id", Json.str "orig")])
    "forge.jar" "net.forge:forge:1.0"

/-- The result of parsing the sample legacy profile. -/
def sampleLegacyParsed : ParsedVersion :=
  { meta := [("libraries", Json.arr [Json.obj [("name", Json.str "n")]]),
      ("id", Json.str "pid")]
    versionLibraries := none
    processors := []
    installData := []
    libPaths := []
    dl := []
    extracted := [("forge.jar", "libs/net.forge:forge:1.0")] }

/-- C8 witness: parsing the sample legacy profile replaces the archive's
embedded id `orig` with the caller-supplied id `pid`. -/
theorem forge_c8_witness :
    alookup sampleLegacyParsed.meta "id" = some (Json.str "pid") :=
  forge_c8 "pid" "1.0" sampleEnv sampleLegacyProfile sampleLegacyParsed rfl

/-- C4 counterexample: a library entry that has a `downloads` key whose value
is the empty object is dropped by `prepare_libraries` although the claim, as
stated, says every entry with a `downloads` key is retained. -/
theorem forge_c4_counterexample :
    prepareLibrariesMeta (some []) [[("downloads", Json.obj [])]] = [] ∧
    alookup ([("downloads", Json.obj [])] : JObj) "downloads" = some (Json.obj []) :=
  ⟨rfl, rfl⟩

/-- C4 (amended): whenever the install library manifest is present, the
version metadata's `libraries` list is replaced by exactly those entries
whose `downloads` value is present and truthy (a non-empty object in
particular; an absent key or a falsy value such as the empty object is
dropped); when the manifest is absent the list is left unchanged. -/
theorem forge_c4 (lp : List (String × String)) (libs : List JObj) :
    prepareLibrariesMeta (some lp) libs = libs.filter hasDownloads ∧
    prepareLibrariesMeta none libs = libs ∧
    ∀ lib, lib ∈ prepareLibrariesMeta (some lp) libs ↔
      lib ∈ libs ∧ hasDownloads lib = true := by
  refine ⟨rfl, rfl, ?_⟩
  intro lib
  simp [prepareLibrariesMeta]

/-- C5: A processor argument template of the exact form `[<name>]` (first
character `[` and last character `]`) substitutes to the filesystem path
mapped to `<name>` in the library-path manifest, independently of the
collaborator's generic substitution; every other template is passed through
the collaborator's generic `replace_vars` substitution over the install-data
map. -/
theorem forge_c5 (rv : String → List (String × Json) → String)
    (lp : List (String × String)) (d : List (String × Json)) :
    (∀ txt p, txt ≠ "" → strFront txt = '[' → strBack txt = ']' →
      alookup lp (strDropRight (strDrop txt 1) 1) = some p →
      replaceInstallVars rv lp d txt = .ok p) ∧
    (∀ txt, txt ≠ "" → ¬(strFront txt = '[' ∧ strBack txt = ']') →
      replaceInstallVars rv lp d txt = .ok (rv txt d)) := by
  constructor
  · intro txt p hne hf hb hl
    simp [replaceInstallVars, hne, hf, hb, hl]
  · intro txt hne hbr
    simp only [replaceInstallVars, if_neg hne, if_neg hbr]

/-- C5 witness: the template `[foo]` with `foo` mapped to `/libs/foo.jar`
substitutes to `/libs/foo.jar` exactly, under a generic substitution that
would have altered it. -/
theorem forge_c5_witness :
    replaceInstallVars (fun t _ => t ++ "!") [("foo", "/libs/foo.jar")] []
      "[foo]" = .ok "/libs/foo.jar" :=
  (forge_c5 (fun t _ => t ++ "!") [("foo", "/libs/foo.jar")] []).1
    "[foo]" "/libs/foo.jar" (by decide) rfl rfl rfl

/-- C10: `replace_install_vars` reads the template's first and last
characters without an emptiness guard: it raises an out-of-range index error
exactly on the empty template, so on every non-empty template the bracket
test is well-defined and no index error is possible. -/
theorem forge_c10 (rv : String → List (String × Json) → String)
    (lp : List (String × String)) (d : List (String × Json)) (txt : String) :
    replaceInstallVars rv lp d txt = .error .indexError ↔ txt = "" := by
  constructor
  · intro h
    by_contra hne
    rw [replaceInstallVars, if_neg hne] at h
    by_cases hbr : strFront txt = '[' ∧ strBack txt = ']'
    · rw [if_pos hbr] at h
      cases hl : alookup lp (strDropRight (strDrop txt 1) 1) <;> rw [hl] at h <;>
        simp at h
    · rw [if_neg hbr] at h
      exact absurd h (by simp)
  · intro h
    subst h
    rfl

/-- An element function of `mapE` that only raises Python errors propagates
only Python errors. -/
theorem mapE_pyErr {α β : Type} (f : α → Except RunError β)
    (hf : ∀ a e, f a = .error e → ∃ pe, e = .pyErr pe) :
    ∀ (l : List α) (e : RunError), mapE f l = .error e → ∃ pe, e = .pyErr pe := by
  intro l
  induction l with
  | nil => intro e h; exact absurd h (by simp [mapE])
  | cons a t ih =>
    intro e h
    rw [mapE] at h
    cases hfa : f a <;> rw [hfa] at h
    · injection h with h'
      subst h'
      exact hf a _ hfa
    · cases hmt : mapE f t <;> rw [hmt] at h
      · injection h with h'
        subst h'
        exact ih _ hmt
      · exact absurd h (by simp)

/-- Building one processor command can only fail with a Python error (an
unresolved library name or a bad template), never with a `ForgeError`. -/
theorem buildProcessorCommand_pyErr (rv : String → List (String × Json) → String)
    (lp : List (String × String)) (d : List (String × Json)) (jvm : String)
    (p : Processor) (e : RunError)
    (h : buildProcessorCommand rv lp d jvm p = .error e) : ∃ pe, e = .pyErr pe := by
  rw [buildProcessorCommand] at h
  cases h1 : alookup lp p.jar <;> rw [h1] at h
  · injection h with h'
    exact ⟨.keyError, h'.symm⟩
  · cases h2 : mapE (fun n =>
        match alookup lp n with
        | some x => .ok x
        | none => .error (RunError.pyErr .keyError)) p.classpath <;> rw [h2] at h
    · injection h with h'
      subst h'
      refine mapE_pyErr _ ?_ _ _ h2
      intro n e' hn
      cases hln : alookup lp n <;> rw [hln] at hn
      · injection hn with h''
        exact ⟨.keyError, h''.symm⟩
      · exact absurd hn (by simp)
    · cases h3 : mapE (fun a =>
          match replaceInstallVars rv lp d a with
          | .ok s => .ok s
          | .error e => .error (RunError.pyErr e)) p.args <;> rw [h3] at h
      · injection h with h'
        subst h'
        refine mapE_pyErr _ ?_ _ _ h3
        intro a e' ha
        cases hra : replaceInstallVars rv lp d a <;> rw [hra] at ha
        · injection ha with h''
          exact ⟨_, h''.symm⟩
        · exact absurd ha (by simp)
      · exact absurd h (by simp)

/-- C6: During post-processing, the install fails with `RequiresJvm`
carrying the forge version exactly when the install manifest is present
(modern-schema install), the processor list is non-empty, and no external
JVM runtime executable is configured; with a configured runtime or without
processors this error is never raised. -/
theorem forge_c6 (rv : String → List (String × Json) → String)
    (fv : String) (lpOpt : Option (List (String × String)))
    (ps : List Processor) (d : List (String × Json)) (jv : Option String) :
    preparePost rv fv lpOpt ps d jv = .error (.forgeErr ⟨.requiresJvm, fv⟩) ↔
      (lpOpt.isSome = true ∧ ps ≠ [] ∧ jv = none) := by
  constructor
  · intro h
    cases lpOpt with
    | none => exact absurd h (by simp [preparePost])
    | some lp =>
      simp only [preparePost] at h
      by_cases hc : ps.length ≠ 0 ∧ jv = none
      · exact ⟨rfl, by simpa using hc.1, hc.2⟩
      · rw [if_neg hc] at h
        cases jv with
        | none => exact absurd h (by simp)
        | some jvm =>
          obtain ⟨pe, hpe⟩ :=
            mapE_pyErr _ (buildProcessorCommand_pyErr rv lp d jvm) ps _ h
          exact absurd hpe (by simp)
  · rintro ⟨hsome, hps, hjv⟩
    cases lpOpt with
    | none => exact absurd hsome (by simp)
    | some lp =>
      subst hjv
      simp only [preparePost]
      rw [if_pos ⟨by simpa using hps, by trivial⟩]

/-- The installer-search loop returns the first suffix whose candidate URL
answers with status 200, appended to the build identifier. -/
theorem findJarLoop_eq_find (status : String → Nat) (fv : String)
    (l : List String) :
    findJarLoop status fv l =
      (l.find? (fun s => status (installerUrl (fv ++ s)) == 200)).map
        (fun s => fv ++ s) := by
  induction l with
  | nil => rfl
  | cons s t ih =>
    rw [findJarLoop, requestInstallJar, List.find?_cons]
    cases hb : status (installerUrl (fv ++ s)) == 200 <;> simp [hb, ih]

/-- The installer-archive search characterized by the first successful
candidate of the ordered suffix list. -/
theorem findInstallJar_eq_find (status : String → Nat) (fv : String) :
    findInstallJar status fv =
      match ("" :: legacySuffixes (gameVersionOf fv)).find?
          (fun s => status (installerUrl (fv ++ s)) == 200) with
      | some s => .ok (fv ++ s)
      | none => .error ⟨.installerNotFound, fv⟩ := by
  rw [findInstallJar, findJarLoop_eq_find]
  cases ("" :: legacySuffixes (gameVersionOf fv)).find?
      (fun s => status (installerUrl (fv ++ s)) == 200) <;> simp

/-- C7: The installer-archive fetch tries the unsuffixed build identifier
first and then the fixed legacy-suffix list of the build's game version (for
`1.7.10` the suffixes `-1.7.10`, `-1710ls`, `-new` in that order), uses the
first candidate whose URL answers with HTTP success, and raises
`InstallerNotFound` carrying the forge version exactly when every candidate
fails. -/
theorem forge_c7 :
    (∀ (status : String → Nat) (fv : String),
      findInstallJar status fv =
        match ("" :: legacySuffixes (gameVersionOf fv)).find?
            (fun s => status (installerUrl (fv ++ s)) == 200) with
        | some s => .ok (fv ++ s)
        | none => .error ⟨.installerNotFound, fv⟩) ∧
    (∀ (status : String → Nat) (fv : String),
      findInstallJar status fv = .error ⟨.installerNotFound, fv⟩ ↔
        ∀ s ∈ ("" :: legacySuffixes (gameVersionOf fv)),
          status (installerUrl (fv ++ s)) ≠ 200) ∧
    legacySuffixes "1.7.10" = ["-1.7.10", "-1710ls", "-new"] := by
  refine ⟨findInstallJar_eq_find, ?_, rfl⟩
  intro status fv
  rw [findInstallJar_eq_find]
  cases hf : ("" :: legacySuffixes (gameVersionOf fv)).find?
      (fun s => status (installerUrl (fv ++ s)) == 200) with
  | none =>
    simp only [List.find?_eq_none] at hf
    constructor
    · intro _ s hs hp
      exact hf s hs (by simpa using hp)
    · intro _
      rfl
  | some s =>
    have hp := List.find?_some hf
    have hm := List.mem_of_find?_eq_some hf
    constructor
    · intro h
      exact absurd h (by simp)
    · intro h
      exact absurd (by simpa using hp) (h s hm)

/-- C4 witness: with the manifest present, a mixed two-element library list
is filtered down to its entry with a (truthy) download descriptor. -/
theorem forge_c4_witness :
    prepareLibrariesMeta (some [])
      [[("downloads", Json.obj [("artifact", Json.obj [])])], [("name", Json.str "x")]] =
      [[("downloads", Json.obj [("artifact", Json.obj [])])], [("name", Json.str "x")]].filter
        hasDownloads :=
  (forge_c4 []
    [[("downloads", Json.obj [("artifact", Json.obj [])])], [("name", Json.str "x")]]).1

/-- C10 witness: the empty template fails with the out-of-range index
error rather than returning any substituted value. -/
theorem forge_c10_witness :
    replaceInstallVars (fun t _ => t) [] [] "" = .error .indexError :=
  (forge_c10 (fun t _ => t) [] [] "").mpr rfl

/-- C6 witness: one declared processor and no configured runtime fail with
`RequiresJvm`. -/
theorem forge_c6_witness :
    preparePost (fun t _ => t) "1.20.1-47.2.0" (some []) [⟨"j", [], []⟩] [] none =
      .error (.forgeErr ⟨.requiresJvm, "1.20.1-47.2.0"⟩) :=
  (forge_c6 (fun t _ => t) "1.20.1-47.2.0" (some []) [⟨"j", [], []⟩] [] none).mpr
    ⟨rfl, by simp, rfl⟩

/-- C7 witness: with no candidate URL answering 200, the fetch fails with
`InstallerNotFound` for the requested build. -/
theorem forge_c7_witness :
    findInstallJar (fun _ => 404) "1.7.10-10.13.4.1614" =
      .error ⟨.installerNotFound, "1.7.10-10.13.4.1614"⟩ :=
  (forge_c7.2.1 (fun _ => 404) "1.7.10-10.13.4.1614").mpr (by decide)

/-- An environment in which every file exists with size 3. -/
def presentEnv : Env := ⟨"libs", fun n => n, fun _ => true, fun _ => 3⟩

/-- C9 witness: a library whose destination file already exists with the
declared size is not queued for download. -/
theorem forge_c9_witness :
    shouldQueue presentEnv ⟨"a:b:1", "http://u", some 3⟩ = false := by
  have h := (forge_c9 presentEnv []).2 ⟨"a:b:1", "http://u", some 3⟩
  cases hq : shouldQueue presentEnv ⟨"a:b:1", "http://u", some 3⟩
  · rfl
  · rcases h.mp hq with h1 | ⟨n, hn, hne⟩
    · exact absurd h1 (by simp [presentEnv])
    · injection hn with hn'
      exact absurd hn' hne

end Forge
